import Mathlib

/-!
Verification of the personalized-voiceover-generator scripts.

The development shallowly embeds the pure decision logic of
`voice_cloning.py` and `record_voice.py`:

* configuration loading and default merging (`VoiceCloner.load_config`),
* voice-sample path resolution (`VoiceCloner.get_voice_sample_path`),
* the auto-numbered output naming scheme (`VoiceCloner.generate_speech`),
* batch processing with partial-failure semantics (`VoiceCloner.batch_generate`),
* audio validation thresholds (`VoiceRecorder.validate_audio`),
* soft noise gating (`VoiceRecorder.reduce_noise`),
* loudness normalization (`VoiceCloner.normalize_audio`).

YAML documents are modelled by the inductive `Val`; Python dicts are
association lists with first-match lookup (Python dict keys are unique, so
first-match lookup agrees with dict lookup).  Exact rational/real
arithmetic stands in for floating point.
-/

namespace Voiceover

/-- A YAML value as produced by `yaml.safe_load`: scalars, sequences and
mappings.  Numbers are modelled as exact rationals. -/
inductive Val where
  | str (s : String)
  | num (q : ℚ)
  | bool (b : Bool)
  | null
  | list (items : List Val)
  | dict (entries : List (String × Val))

/-- First-match lookup in an association list; models `d[k]` / `k in d` /
`d.get(k)` on a Python dict. -/
def lookup : List (String × Val) → String → Option Val
  | [], _ => none
  | (k, v) :: rest, key => if k = key then some v else lookup rest key

/-- Replace the value at an existing key, keeping its position; models the
in-place update `config[key] = ...` when `key` is already present. -/
def setKey : List (String × Val) → String → Val → List (String × Val)
  | [], _, _ => []
  | (k, v) :: rest, key, newV =>
      if k = key then (k, newV) :: rest else (k, v) :: setKey rest key newV

/-- Inner merge loop of `load_config` (voice_cloning.py lines 67-69): for
each default subkey, add it only when the user config does not supply it. -/
def addMissing (base : List (String × Val)) (defs : List (String × Val)) :
    List (String × Val) :=
  defs.foldl (fun acc p => if (lookup acc p.1).isSome then acc else acc ++ [p]) base

/-- One iteration of the outer merge loop of `load_config` (voice_cloning.py
lines 62-69): absent keys are taken wholesale from the defaults; keys whose
default and loaded values are both mappings are deep-merged per subkey;
anything else keeps the loaded value. -/
def mergeStep (config : List (String × Val)) (key : String) (v : Val) :
    List (String × Val) :=
  match lookup config key with
  | none => config ++ [(key, v)]
  | some cur =>
    match v, cur with
    | .dict dv, .dict cd => setKey config key (.dict (addMissing cd dv))
    | _, _ => config

/-- Default `model` section of `load_config` (voice_cloning.py lines 49-53). -/
def model_defaults : List (String × Val) :=
  [("name", .str "tts_models/multilingual/multi-dataset/xtts_v2"),
   ("temperature", .num (7/10)),
   ("speed", .num 1)]

/-- Default `output` section of `load_config` (voice_cloning.py lines 54-58). -/
def output_defaults : List (String × Val) :=
  [("format", .str "wav"),
   ("sample_rate", .num 44100),
   ("normalize", .bool true)]

/-- The built-in defaults of `load_config` (voice_cloning.py lines 47-59). -/
def defaults : List (String × Val) :=
  [("voices", .dict []),
   ("model", .dict model_defaults),
   ("output", .dict output_defaults)]

/-- State of the configuration file as seen by `load_config`:
either the file is absent, or it parses to `none` (empty document) or to
some YAML value. -/
inductive ConfigFile where
  | absent
  | parsed (v : Option Val)

/-- `VoiceCloner.load_config` (voice_cloning.py lines 31-71): read the YAML
document (absent file or empty document give `{}`), coerce a non-mapping
document to `{}`, then merge the defaults in. -/
def load_config (file : ConfigFile) : List (String × Val) :=
  let config :=
    match file with
    | .absent => []
    | .parsed none => []
    | .parsed (some v) =>
      match v with
      | .dict d => d
      | _ => []
  defaults.foldl (fun c p => mergeStep c p.1 p.2) config

/-- C1: when the configuration file is absent, parses to an empty document,
or parses to a non-mapping value, `load_config` returns exactly the
all-defaults configuration (voices = {}, model = {name, temperature 0.7,
speed 1.0}, output = {format wav, sample_rate 44100, normalize true}).
`load_config` is a total function, so no input in this state space raises a
hard failure. -/
theorem c1_load_config_all_defaults (file : ConfigFile)
    (h : file = .absent ∨ file = .parsed none ∨
         ∃ v, file = .parsed (some v) ∧ ∀ d, v ≠ .dict d) :
    load_config file =
      [("voices", .dict []),
       ("model", .dict
         [("name", .str "tts_models/multilingual/multi-dataset/xtts_v2"),
          ("temperature", .num (7/10)),
          ("speed", .num 1)]),
       ("output", .dict
         [("format", .str "wav"),
          ("sample_rate", .num 44100),
          ("normalize", .bool true)])] := by
  rcases h with rfl | rfl | ⟨v, rfl, hv⟩
  · rfl
  · rfl
  · cases v with
    | str s => rfl
    | num q => rfl
    | bool b => rfl
    | null => rfl
    | list items => rfl
    | dict d => exact absurd rfl (hv d)

/-- Witness for C1 at the concrete input of an absent configuration file. -/
theorem c1_witness :
    load_config .absent =
      [("voices", .dict []),
       ("model", .dict
         [("name", .str "tts_models/multilingual/multi-dataset/xtts_v2"),
          ("temperature", .num (7/10)),
          ("speed", .num 1)]),
       ("output", .dict
         [("format", .str "wav"),
          ("sample_rate", .num 44100),
          ("normalize", .bool true)])] :=
  c1_load_config_all_defaults .absent (Or.inl rfl)

theorem lookup_append (a b : List (String × Val)) (k : String) :
    lookup (a ++ b) k = (lookup a k).or (lookup b k) := by
  induction a with
  | nil => simp [lookup]
  | cons p rest ih =>
      obtain ⟨k0, v0⟩ := p
      by_cases hk : k0 = k
      · simp [lookup, hk]
      · simp [lookup, hk, ih]

theorem lookup_setKey_ne (c : List (String × Val)) (key k : String) (v : Val)
    (h : k ≠ key) : lookup (setKey c key v) k = lookup c k := by
  have hne : key ≠ k := fun hh => h hh.symm
  induction c with
  | nil => rfl
  | cons p rest ih =>
      obtain ⟨k0, v0⟩ := p
      by_cases hk : k0 = key
      · subst hk
        simp [setKey, lookup, hne]
      · simp [setKey, lookup, hk, ih]

theorem lookup_setKey_self (c : List (String × Val)) (key : String) (v : Val)
    (h : (lookup c key).isSome) : lookup (setKey c key v) key = some v := by
  induction c with
  | nil => simp [lookup] at h
  | cons p rest ih =>
      obtain ⟨k0, v0⟩ := p
      by_cases hk : k0 = key
      · simp [setKey, lookup, hk]
      · simp [lookup, hk] at h
        simp [setKey, lookup, hk, ih h]

theorem addMissing_lookup (defs : List (String × Val)) (base : List (String × Val))
    (k : String) :
    lookup (addMissing base defs) k = (lookup base k).or (lookup defs k) := by
  induction defs generalizing base with
  | nil => simp [addMissing, lookup]
  | cons p rest ih =>
      obtain ⟨k0, v0⟩ := p
      have hstep : addMissing base ((k0, v0) :: rest) =
          addMissing (if (lookup base k0).isSome then base else base ++ [(k0, v0)]) rest := rfl
      rw [hstep]
      by_cases hp : (lookup base k0).isSome
      · rw [if_pos hp, ih]
        by_cases hk : k0 = k
        · subst hk
          obtain ⟨w, hw⟩ := Option.isSome_iff_exists.mp hp
          simp [lookup, hw]
        · simp [lookup, hk]
      · rw [if_neg hp, ih, lookup_append]
        by_cases hk : k0 = k
        · subst hk
          have hnone : lookup base k0 = none := Option.not_isSome_iff_eq_none.mp hp
          simp [lookup, hnone]
        · simp [lookup, hk]

theorem lookup_mergeStep_ne (c : List (String × Val)) (key k : String) (v : Val)
    (h : k ≠ key) : lookup (mergeStep c key v) k = lookup c k := by
  unfold mergeStep
  cases hc : lookup c key with
  | none =>
      rw [lookup_append]
      have hne : key ≠ k := fun hh => h hh.symm
      simp [lookup, hne]
  | some cur =>
      cases v with
      | dict dv =>
          cases cur with
          | dict cd => exact lookup_setKey_ne c key k _ h
          | str s => rfl
          | num q => rfl
          | bool b => rfl
          | null => rfl
          | list items => rfl
      | str s => rfl
      | num q => rfl
      | bool b => rfl
      | null => rfl
      | list items => rfl

theorem lookup_mergeStep_absent (c : List (String × Val)) (key : String) (v : Val)
    (h : lookup c key = none) : lookup (mergeStep c key v) key = some v := by
  unfold mergeStep
  rw [h, lookup_append, h]
  simp [lookup]

theorem lookup_mergeStep_dicts (c : List (String × Val)) (key : String)
    (dv cd : List (String × Val)) (h : lookup c key = some (.dict cd)) :
    lookup (mergeStep c key (.dict dv)) key = some (.dict (addMissing cd dv)) := by
  unfold mergeStep
  rw [h]
  exact lookup_setKey_self c key _ (by simp [h])

theorem load_config_dict_unfold (u : List (String × Val)) :
    load_config (.parsed (some (.dict u))) =
      mergeStep (mergeStep (mergeStep u "voices" (.dict []))
        "model" (.dict model_defaults)) "output" (.dict output_defaults) := rfl

/-- C3: the merge performed by `load_config` is per nested key.  (i) A
top-level section absent from the loaded config is taken wholesale from the
defaults.  (ii) When the default section and the loaded section are both
mappings, each subkey resolves to the user value when supplied and to the
default otherwise.  (iii) In particular, a user config
`{model: {temperature: 0.9}}` resolves to `temperature = 0.9` and
`speed = 1.0`. -/
theorem c3_deep_merge (u : List (String × Val)) :
    (∀ k dv, lookup defaults k = some dv → lookup u k = none →
       lookup (load_config (.parsed (some (.dict u)))) k = some dv) ∧
    (∀ k ddv um, lookup defaults k = some (.dict ddv) →
       lookup u k = some (.dict um) →
       ∃ mm, lookup (load_config (.parsed (some (.dict u)))) k = some (.dict mm) ∧
         ∀ sk, lookup mm sk = (lookup um sk).or (lookup ddv sk)) ∧
    (lookup u "model" = some (.dict [("temperature", .num (9/10))]) →
       ∃ mm, lookup (load_config (.parsed (some (.dict u)))) "model" = some (.dict mm) ∧
         lookup mm "temperature" = some (.num (9/10)) ∧
         lookup mm "speed" = some (.num 1)) := by
  have hvm : ("model" : String) ≠ "voices" := by decide
  have hvo : ("output" : String) ≠ "voices" := by decide
  have hmo : ("output" : String) ≠ "model" := by decide
  have hom : ("model" : String) ≠ "output" := by decide
  have hvo2 : ("voices" : String) ≠ "output" := by decide
  have hvm2 : ("voices" : String) ≠ "model" := by decide
  refine ⟨?_, ?_, ?_⟩
  · intro k dv hd hu
    simp only [defaults, lookup] at hd
    rw [load_config_dict_unfold]
    split_ifs at hd with h1 h2 h3
    · subst h1
      cases hd
      rw [lookup_mergeStep_ne _ _ _ _ hvo2, lookup_mergeStep_ne _ _ _ _ hvm2]
      exact lookup_mergeStep_absent _ _ _ hu
    · subst h2
      cases hd
      rw [lookup_mergeStep_ne _ _ _ _ hom]
      have h1 : lookup (mergeStep u "voices" (.dict [])) "model" = none := by
        rw [lookup_mergeStep_ne _ _ _ _ hvm]; exact hu
      exact lookup_mergeStep_absent _ _ _ h1
    · subst h3
      cases hd
      have h1 : lookup (mergeStep (mergeStep u "voices" (.dict []))
          "model" (.dict model_defaults)) "output" = none := by
        rw [lookup_mergeStep_ne _ _ _ _ hmo, lookup_mergeStep_ne _ _ _ _ hvo]
        exact hu
      exact lookup_mergeStep_absent _ _ _ h1
  · intro k ddv um hd hu
    simp only [defaults, lookup] at hd
    rw [load_config_dict_unfold]
    split_ifs at hd with h1 h2 h3
    · subst h1
      cases hd
      refine ⟨addMissing um [], ?_, fun sk => by rw [addMissing_lookup]⟩
      rw [lookup_mergeStep_ne _ _ _ _ hvo2, lookup_mergeStep_ne _ _ _ _ hvm2]
      exact lookup_mergeStep_dicts _ _ _ _ hu
    · subst h2
      cases hd
      refine ⟨addMissing um model_defaults, ?_,
        fun sk => by rw [addMissing_lookup]⟩
      rw [lookup_mergeStep_ne _ _ _ _ hom]
      have h1 : lookup (mergeStep u "voices" (.dict [])) "model" =
          some (.dict um) := by
        rw [lookup_mergeStep_ne _ _ _ _ hvm]; exact hu
      exact lookup_mergeStep_dicts _ _ _ _ h1
    · subst h3
      cases hd
      refine ⟨addMissing um output_defaults, ?_,
        fun sk => by rw [addMissing_lookup]⟩
      have h1 : lookup (mergeStep (mergeStep u "voices" (.dict []))
          "model" (.dict model_defaults)) "output" = some (.dict um) := by
        rw [lookup_mergeStep_ne _ _ _ _ hmo, lookup_mergeStep_ne _ _ _ _ hvo]
        exact hu
      exact lookup_mergeStep_dicts _ _ _ _ h1
  · intro hu
    rw [load_config_dict_unfold]
    refine ⟨addMissing [("temperature", .num (9/10))] model_defaults, ?_, ?_, ?_⟩
    · rw [lookup_mergeStep_ne _ _ _ _ hom]
      have h1 : lookup (mergeStep u "voices" (.dict [])) "model" =
          some (.dict [("temperature", .num (9/10))]) := by
        rw [lookup_mergeStep_ne _ _ _ _ hvm]; exact hu
      exact lookup_mergeStep_dicts _ _ _ _ h1
    · rw [addMissing_lookup]; rfl
    · rw [addMissing_lookup]; rfl

/-- Witness for C3 at the concrete user config `{model: {temperature: 0.9}}`. -/
theorem c3_witness :
    ∃ mm,
      lookup (load_config (.parsed (some (.dict
        [("model", .dict [("temperature", .num (9/10))])])))) "model" =
        some (.dict mm) ∧
      lookup mm "temperature" = some (.num (9/10)) ∧
      lookup mm "speed" = some (.num 1) :=
  (c3_deep_merge [("model", .dict [("temperature", .num (9/10))])]).2.2 rfl

/-- The `voices` section as read by `get_voice_sample_path`
(voice_cloning.py lines 83-88): a non-mapping config is coerced to `{}`,
then `config.get('voices', {})`. -/
def voices_section (config : Val) : Val :=
  (lookup (match config with | .dict es => es | _ => []) "voices").getD (.dict [])

/-- The recognized voice-sample extensions, in probing order
(voice_cloning.py line 94). -/
def probe_exts : List String := [".wav", ".mp3", ".flac"]

/-- Probe `voices/<name><ext>` for each extension in order, returning the
first path that exists in the file system `fs` (voice_cloning.py
lines 93-97). -/
def find_voice_file (fs : List String) (name : String) : List String → Option String
  | [] => none
  | ext :: rest =>
      let p := "voices/" ++ name ++ ext
      if p ∈ fs then some p else find_voice_file fs name rest

/-- The `FileNotFoundError` message of `get_voice_sample_path`
(voice_cloning.py lines 99-100). -/
def not_found_msg (name : String) : String :=
  "Voice sample '" ++ name ++
    "' not found. Please add it to voices/ directory or config.yaml"

/-- Directory probing with the not-found failure (voice_cloning.py
lines 92-100). -/
def probe_voices_dir (fs : List String) (name : String) : Except String (Option Val) :=
  match find_voice_file fs name probe_exts with
  | some p => .ok (some (.str p))
  | none => .error (not_found_msg name)

/-- `VoiceCloner.get_voice_sample_path` (voice_cloning.py lines 81-100).
`fs` is the set of existing file paths.  `.ok (some v)` models a returned
path, `.ok none` models returning Python `None`, `.error` models a raised
exception (the `AttributeError` arm models `voices[voice_name].get(...)`
on a non-mapping entry). -/
def get_voice_sample_path (config : Val) (fs : List String) (name : String) :
    Except String (Option Val) :=
  match voices_section config with
  | .dict vs =>
      match lookup vs name with
      | some (.dict e) => .ok (lookup e "sample_path")
      | some _ => .error "AttributeError"
      | none => probe_voices_dir fs name
  | _ => probe_voices_dir fs name

/-- C4: voice resolution checks `voices[name].sample_path` first; when the
name is not declared it probes `voices/` for `name` plus `.wav`, `.mp3`,
`.flac` in that fixed order and returns the first existing match; when
neither yields a path it fails with an error message that names the
expected `voices/` directory. -/
theorem c4_voice_resolution (config : Val) (fs : List String) (name : String) :
    (∀ vs e p, voices_section config = .dict vs →
       lookup vs name = some (.dict e) → lookup e "sample_path" = some p →
       get_voice_sample_path config fs name = .ok (some p)) ∧
    (∀ vs, voices_section config = .dict vs → lookup vs name = none →
      (("voices/" ++ name ++ ".wav") ∈ fs →
         get_voice_sample_path config fs name =
           .ok (some (.str ("voices/" ++ name ++ ".wav")))) ∧
      (("voices/" ++ name ++ ".wav") ∉ fs → ("voices/" ++ name ++ ".mp3") ∈ fs →
         get_voice_sample_path config fs name =
           .ok (some (.str ("voices/" ++ name ++ ".mp3")))) ∧
      (("voices/" ++ name ++ ".wav") ∉ fs → ("voices/" ++ name ++ ".mp3") ∉ fs →
         ("voices/" ++ name ++ ".flac") ∈ fs →
         get_voice_sample_path config fs name =
           .ok (some (.str ("voices/" ++ name ++ ".flac")))) ∧
      (("voices/" ++ name ++ ".wav") ∉ fs → ("voices/" ++ name ++ ".mp3") ∉ fs →
         ("voices/" ++ name ++ ".flac") ∉ fs →
         ∃ s t, get_voice_sample_path config fs name =
           .error (s ++ ("voices/" ++ t)))) := by
  constructor
  · intro vs e p h1 h2 h3
    simp [get_voice_sample_path, h1, h2, h3]
  · intro vs h1 h2
    refine ⟨?_, ?_, ?_, ?_⟩
    · intro hwav
      simp [get_voice_sample_path, h1, h2, probe_voices_dir, probe_exts,
        find_voice_file, hwav]
    · intro hwav hmp3
      simp [get_voice_sample_path, h1, h2, probe_voices_dir, probe_exts,
        find_voice_file, hwav, hmp3]
    · intro hwav hmp3 hflac
      simp [get_voice_sample_path, h1, h2, probe_voices_dir, probe_exts,
        find_voice_file, hwav, hmp3, hflac]
    · intro hwav hmp3 hflac
      rw [String.append_assoc] at hwav hmp3 hflac
      refine ⟨"Voice sample '" ++ name ++ "' not found. Please add it to ",
        " directory or config.yaml", ?_⟩
      simp [get_voice_sample_path, h1, h2, probe_voices_dir, probe_exts,
        find_voice_file, hwav, hmp3, hflac, not_found_msg, String.append_assoc]

/-- Witness for C4: with an empty config and empty file system, resolving
the voice "alex" fails with a message naming the `voices/` directory. -/
theorem c4_witness :
    ∃ s t, get_voice_sample_path (.dict []) [] "alex" =
      .error (s ++ ("voices/" ++ t)) :=
  ((c4_voice_resolution (.dict []) [] "alex").2 [] rfl rfl).2.2.2
    (by simp) (by simp) (by simp)

/-- C9: a voice declared in the `voices` mapping whose entry lacks a
`sample_path` key resolves to Python `None` — the `voices/` directory is
not probed and no error is raised, whatever files exist on disk. -/
theorem c9_declared_without_sample_path (config : Val) (fs : List String)
    (name : String) (vs e : List (String × Val))
    (h1 : voices_section config = .dict vs)
    (h2 : lookup vs name = some (.dict e))
    (h3 : lookup e "sample_path" = none) :
    get_voice_sample_path config fs name = .ok none := by
  simp [get_voice_sample_path, h1, h2, h3]

/-- Witness for C9: the voice "alex" is declared without `sample_path` and
`voices/alex.wav` exists, yet resolution returns `None` rather than the
file. -/
theorem c9_witness :
    get_voice_sample_path
      (.dict [("voices", .dict [("alex", .dict [("language", .str "en")])])])
      ["voices/alex.wav"] "alex" = .ok none :=
  c9_declared_without_sample_path _ ["voices/alex.wav"] "alex"
    [("alex", .dict [("language", .str "en")])]
    [("language", .str "en")] rfl rfl rfl

/-- File name chosen by `VoiceCloner.generate_speech` when no output path is
given (voice_cloning.py line 140): `output_{len(list(output_dir.glob('*'))) + 1}.wav`,
where the length is the number of entries in the `output/` directory. -/
def auto_output_name (entries : List String) : String :=
  "output_" ++ Nat.repr (entries.length + 1) ++ ".wav"

/-- Full path of the auto-named output file, under the `output/` directory
(voice_cloning.py lines 138-140). -/
def auto_output_path (entries : List String) : String :=
  "output/" ++ auto_output_name entries

/-- The directory contents produced by `n` successive runs of the
auto-numbering scheme starting from an empty `output/` directory. -/
def canonical_output_dir (n : ℕ) : List String :=
  (List.range n).map (fun i => "output_" ++ Nat.repr (i + 1) ++ ".wav")

theorem toDigitsCore_eq_digits (fuel : ℕ) :
    ∀ (n : ℕ) (ds : List Char), 0 < n → n < 10 ^ fuel →
      Nat.toDigitsCore 10 fuel n ds =
        ((Nat.digits 10 n).reverse.map Nat.digitChar) ++ ds := by
  induction fuel with
  | zero =>
      intro n ds h0 hf
      simp at hf
      omega
  | succ fuel ih =>
      intro n ds h0 hf
      have hdig : Nat.digits 10 n = n % 10 :: Nat.digits 10 (n / 10) :=
        Nat.digits_def' (by norm_num) h0
      by_cases hdiv : n / 10 = 0
      · have hstep : Nat.toDigitsCore 10 (fuel + 1) n ds =
            Nat.digitChar (n % 10) :: ds := by
          rw [Nat.toDigitsCore]
          simp [hdiv]
        rw [hstep, hdig, hdiv]
        simp
      · have hstep : Nat.toDigitsCore 10 (fuel + 1) n ds =
            Nat.toDigitsCore 10 fuel (n / 10) (Nat.digitChar (n % 10) :: ds) := by
          rw [Nat.toDigitsCore]
          simp [hdiv]
        have hlt : n / 10 < 10 ^ fuel := by
          rw [Nat.div_lt_iff_lt_mul (by norm_num : 0 < 10)]
          calc n < 10 ^ (fuel + 1) := hf
          _ = 10 ^ fuel * 10 := by ring
        rw [hstep, ih (n / 10) _ (Nat.pos_of_ne_zero hdiv) hlt, hdig]
        simp

theorem toDigits_eq_digits (n : ℕ) (h0 : 0 < n) :
    Nat.toDigits 10 n = (Nat.digits 10 n).reverse.map Nat.digitChar := by
  have h1 : n < 10 ^ (n + 1) :=
    lt_trans (Nat.lt_pow_self (by norm_num) n)
      (Nat.pow_lt_pow_right (by norm_num) (Nat.lt_succ_self n))
  have h2 := toDigitsCore_eq_digits (n + 1) n [] h0 h1
  rw [Nat.toDigits, h2, List.append_nil]

/-- Value of a decimal digit character, inverse to `Nat.digitChar` on
digits below 10. -/
def charVal (c : Char) : ℕ := c.toNat - 48

theorem charVal_digitChar (d : ℕ) (hd : d < 10) :
    charVal (Nat.digitChar d) = d := by
  interval_cases d <;> decide

theorem decode_toDigits (n : ℕ) :
    Nat.ofDigits 10 (((Nat.toDigits 10 n).map charVal).reverse) = n := by
  rcases Nat.eq_zero_or_pos n with rfl | h0
  · decide
  · rw [toDigits_eq_digits n h0, List.map_reverse, List.map_reverse,
      List.reverse_reverse, List.map_map]
    have hcongr : (Nat.digits 10 n).map (charVal ∘ Nat.digitChar) =
        Nat.digits 10 n := by
      conv_rhs => rw [← List.map_id (Nat.digits 10 n)]
      apply List.map_congr_left
      intro d hd
      simpa using charVal_digitChar d (Nat.digits_lt_base (by norm_num) hd)
    rw [hcongr, Nat.ofDigits_digits]

theorem repr_injective : Function.Injective Nat.repr := by
  intro m n h
  have h2 : (Nat.toDigits 10 m).asString = (Nat.toDigits 10 n).asString := h
  have hlist : Nat.toDigits 10 m = Nat.toDigits 10 n :=
    congrArg String.data h2
  have hm := decode_toDigits m
  rw [hlist, decode_toDigits n] at hm
  exact hm.symm

theorem auto_name_fresh (n : ℕ) :
    auto_output_name (canonical_output_dir n) ∉ canonical_output_dir n := by
  intro hmem
  have hlen : (canonical_output_dir n).length = n := by
    simp [canonical_output_dir]
  rw [auto_output_name, hlen] at hmem
  rw [canonical_output_dir, List.mem_map] at hmem
  obtain ⟨i, hi, heq⟩ := hmem
  rw [List.mem_range] at hi
  have hdata := congrArg String.data heq
  simp only [String.data_append] at hdata
  have hrd : (Nat.repr (i + 1)).data = (Nat.repr (n + 1)).data :=
    List.append_cancel_left (List.append_cancel_right hdata)
  have hrepr : Nat.repr (i + 1) = Nat.repr (n + 1) := String.ext hrd
  have := repr_injective hrepr
  omega

/-- C2 counterexample: with `output/` holding the single file
`output_2.wav`, the auto-numbering scheme chooses the name `output_2.wav`,
which is exactly the existing file — it would be overwritten. -/
theorem c2_counterexample :
    auto_output_name ["output_2.wav"] = "output_2.wav" ∧
    "output_2.wav" ∈ ["output_2.wav"] := by
  constructor
  · decide
  · simp

/-- C2 (amended): with no output path given, `generate_speech` chooses the
deterministic auto-numbered name `output_{n+1}.wav` under `output/`, where
`n` is the number of entries in `output/`; when the directory holds exactly
the files this scheme itself produces (`output_1.wav` … `output_n.wav`) the
chosen name is fresh, but for other directory contents it can coincide with
an existing file. -/
theorem c2_auto_numbering (entries : List String) :
    auto_output_path entries =
      "output/" ++ ("output_" ++ Nat.repr (entries.length + 1) ++ ".wav") ∧
    (entries = canonical_output_dir entries.length →
      auto_output_name entries ∉ entries) := by
  constructor
  · rfl
  · intro hcanon
    rw [hcanon]
    exact auto_name_fresh entries.length

/-- Witness for C2 (amended): with `output/` holding exactly
`output_1.wav` and `output_2.wav`, the chosen name is fresh. -/
theorem c2_witness :
    auto_output_name ["output_1.wav", "output_2.wav"] ∉
      ["output_1.wav", "output_2.wav"] :=
  (c2_auto_numbering ["output_1.wav", "output_2.wav"]).2 (by decide)

/-- Python `str.strip()`: drop leading and trailing whitespace. -/
def pystrip (s : String) : String :=
  ⟨((s.data.dropWhile Char.isWhitespace).reverse.dropWhile Char.isWhitespace).reverse⟩

/-- Accumulated results of a batch run: the produced output files and the
recorded per-file errors (voice_cloning.py lines 227-243). -/
structure BatchResult where
  outputs : List String
  errors : List String

/-- One iteration of the batch loop of `VoiceCloner.batch_generate`
(voice_cloning.py lines 227-243): read and strip the file, skip it when
empty, otherwise synthesize `<stem>_voiceover.wav`; an engine failure is
recorded and the loop continues.  A text file is the pair (stem, contents);
`engineFails` is the opaque synthesis engine's failure behavior on the
stripped text. -/
def batch_step (engineFails : String → Bool) (acc : BatchResult)
    (file : String × String) : BatchResult :=
  let text := pystrip file.2
  if text = "" then acc
  else if engineFails text then { acc with errors := acc.errors ++ [file.1] }
  else { acc with outputs := acc.outputs ++ [file.1 ++ "_voiceover.wav"] }

/-- `VoiceCloner.batch_generate` over the text files of a directory
(voice_cloning.py lines 209-243), abstracting the per-file synthesis to its
success or failure. -/
def batch_generate (engineFails : String → Bool) (files : List (String × String)) :
    BatchResult :=
  files.foldl (batch_step engineFails) ⟨[], []⟩

theorem batch_foldl_eq (engineFails : String → Bool)
    (files : List (String × String)) : ∀ acc : BatchResult,
    files.foldl (batch_step engineFails) acc =
      ⟨acc.outputs ++
         (files.filter (fun f => !(pystrip f.2 == "") && !engineFails (pystrip f.2))).map
           (fun f => f.1 ++ "_voiceover.wav"),
       acc.errors ++
         (files.filter (fun f => !(pystrip f.2 == "") && engineFails (pystrip f.2))).map
           Prod.fst⟩ := by
  induction files with
  | nil => intro acc; simp [List.foldl]
  | cons f rest ih =>
      intro acc
      rw [List.foldl_cons, ih]
      unfold batch_step
      by_cases hempty : pystrip f.2 = ""
      · simp [hempty, List.filter_cons]
      · have hb : (pystrip f.2 == "") = false := beq_eq_false_iff_ne.mpr hempty
        by_cases hfail : engineFails (pystrip f.2)
        · simp [hempty, hb, hfail, List.filter_cons]
        · simp [hempty, hb, hfail, List.filter_cons]

/-- C5: in batch mode every non-empty text file is processed independently:
the produced outputs are exactly the non-empty files on which the engine
succeeds and the recorded errors exactly the non-empty files on which it
fails, in input order.  In particular a batch of three non-empty files with
exactly one engine failure yields exactly two output files and one recorded
error. -/
theorem c5_batch_partial_failure (engineFails : String → Bool)
    (files : List (String × String)) :
    ((batch_generate engineFails files).outputs =
       (files.filter (fun f => !(pystrip f.2 == "") && !engineFails (pystrip f.2))).map
         (fun f => f.1 ++ "_voiceover.wav") ∧
     (batch_generate engineFails files).errors =
       (files.filter (fun f => !(pystrip f.2 == "") && engineFails (pystrip f.2))).map
         Prod.fst) ∧
    (∀ f1 f2 f3 : String × String, files = [f1, f2, f3] →
       pystrip f1.2 ≠ "" → pystrip f2.2 ≠ "" → pystrip f3.2 ≠ "" →
       engineFails (pystrip f1.2) = false → engineFails (pystrip f2.2) = true →
       engineFails (pystrip f3.2) = false →
       (batch_generate engineFails files).outputs.length = 2 ∧
       (batch_generate engineFails files).errors.length = 1) := by
  have hgen := batch_foldl_eq engineFails files ⟨[], []⟩
  constructor
  · rw [batch_generate, hgen]
    simp
  · intro f1 f2 f3 hf he1 he2 he3 hb1 hb2 hb3
    subst hf
    rw [batch_generate]
    have hgen3 := batch_foldl_eq engineFails [f1, f2, f3] ⟨[], []⟩
    rw [hgen3]
    have hq1 : (pystrip f1.2 == "") = false := beq_eq_false_iff_ne.mpr he1
    have hq2 : (pystrip f2.2 == "") = false := beq_eq_false_iff_ne.mpr he2
    have hq3 : (pystrip f3.2 == "") = false := beq_eq_false_iff_ne.mpr he3
    simp [List.filter_cons, hq1, hq2, hq3, hb1, hb2, hb3]

/-- Witness for C5: three non-empty files where only the middle one makes
the engine fail give two outputs and one recorded error. -/
theorem c5_witness :
    (batch_generate (fun t => t == "boom")
       [("a", "hello"), ("b", "boom"), ("c", "world")]).outputs.length = 2 ∧
    (batch_generate (fun t => t == "boom")
       [("a", "hello"), ("b", "boom"), ("c", "world")]).errors.length = 1 :=
  (c5_batch_partial_failure (fun t => t == "boom")
      [("a", "hello"), ("b", "boom"), ("c", "world")]).2
    ("a", "hello") ("b", "boom") ("c", "world") rfl
    (by simp [pystrip]) (by simp [pystrip]) (by simp [pystrip])
    (by simp [pystrip]) (by simp [pystrip]) (by simp [pystrip])

/-- Insert into an ascending list, preserving order. -/
def insertSorted (x : ℚ) : List ℚ → List ℚ
  | [] => [x]
  | y :: ys => if x ≤ y then x :: y :: ys else y :: insertSorted x ys

/-- Ascending sort, modelling `np.sort` inside `np.percentile`. -/
def sortAsc (xs : List ℚ) : List ℚ := xs.foldr insertSorted []

/-- `np.percentile(xs, 10)` with numpy's default linear interpolation:
on the ascending sort `a`, the value at fractional index
`(len - 1) * 10 / 100` is `a[lo] + g * (a[lo+1] - a[lo])` where `lo` is the
integer part and `g` the fractional part of that index. -/
def percentile10 (xs : List ℚ) : ℚ :=
  let s := sortAsc xs
  let n := s.length
  if n = 0 then 0
  else
    let pos : ℚ := ((n : ℚ) - 1) * 10 / 100
    let lo : ℕ := (⌊pos⌋).toNat
    let g : ℚ := pos - (lo : ℚ)
    match s.get? lo, s.get? (lo + 1) with
    | some a, some b => a + g * (b - a)
    | some a, none => a
    | _, _ => 0

/-- Noise floor of `VoiceRecorder.reduce_noise` (record_voice.py line 167):
the 10th percentile of the absolute sample magnitudes. -/
def noise_threshold (audio : List ℚ) : ℚ :=
  percentile10 (audio.map (fun x => |x|))

/-- `VoiceRecorder.reduce_noise` (record_voice.py lines 163-176): samples
whose magnitude exceeds the noise floor pass unchanged; the rest are
multiplied by 0.1 rather than zeroed. -/
def reduce_noise (audio : List ℚ) : List ℚ :=
  audio.map (fun x => if |x| > noise_threshold audio then x else x * (1/10))

/-- C7: soft noise gating computes the 10th percentile of absolute sample
magnitude as the noise floor, leaves samples above the floor unchanged,
multiplies samples below the floor by the fixed factor 0.1, preserves the
sample count, and never zeroes a nonzero sample. -/
theorem c7_soft_noise_gate (audio : List ℚ) (i : ℕ) (x : ℚ)
    (hx : audio[i]? = some x) :
    (reduce_noise audio).length = audio.length ∧
    (|x| > noise_threshold audio → (reduce_noise audio)[i]? = some x) ∧
    (|x| < noise_threshold audio →
       (reduce_noise audio)[i]? = some (x * (1/10))) ∧
    (x ≠ 0 → ∀ y, (reduce_noise audio)[i]? = some y → y ≠ 0) := by
  refine ⟨by simp [reduce_noise], ?_, ?_, ?_⟩
  · intro hgt
    simp [reduce_noise, List.getElem?_map, hx, hgt]
  · intro hlt
    have hngt : ¬ |x| > noise_threshold audio := not_lt.mpr (le_of_lt hlt)
    simp [reduce_noise, List.getElem?_map, hx, hngt]
  · intro hx0 y hy
    have hy2 : (if |x| > noise_threshold audio then x else x * (1/10)) = y := by
      simpa [reduce_noise, List.getElem?_map, hx] using hy
    by_cases hgt : |x| > noise_threshold audio
    · rw [if_pos hgt] at hy2
      rw [← hy2]
      exact hx0
    · rw [if_neg hgt] at hy2
      rw [← hy2]
      exact mul_ne_zero hx0 (by norm_num)

/-- Witness for C7 on the concrete input `[0, 1, 2, ..., 9]`: the noise
floor is 0.9, so the sample 5 passes unchanged while the sample 0 is
attenuated. -/
theorem c7_witness :
    (reduce_noise [0, 1, 2, 3, 4, 5, 6, 7, 8, 9])[5]? = some 5 :=
  (c7_soft_noise_gate [0, 1, 2, 3, 4, 5, 6, 7, 8, 9] 5 5 rfl).2.1 (by
    have hfloor : (⌊(9 : ℚ)/10⌋ : ℤ) = 0 := by
      rw [Int.floor_eq_iff]
      norm_num
    norm_num [noise_threshold, percentile10, sortAsc, insertSorted,
      abs_of_nonneg, List.get?, hfloor])

/-- Advisory classifications printed by `VoiceRecorder.validate_audio`
(record_voice.py lines 178-220), in program order: one duration line, one
level line, one quality line. -/
inductive Advisory where
  | tooShort
  | willTruncate
  | durationOptimal
  | clipping
  | levelsGood
  | noisy
  | qualityGood
deriving DecidableEq

/-- `np.max` of a nonempty array (empty input gives 0, a case `np.max`
rejects at runtime). -/
def maxList : List ℝ → ℝ
  | [] => 0
  | x :: xs => xs.foldl max x

/-- `np.mean`: sum divided by length. -/
noncomputable def meanList (xs : List ℝ) : ℝ := xs.sum / xs.length

/-- SNR estimate of `VoiceRecorder.validate_audio` (record_voice.py
lines 211-212): `20 * log10(max(rms) / (mean(rms) + 1e-10))` over the frame
RMS values produced by the analysis windows of `librosa.feature.rms`. -/
noncomputable def snr_estimate (rms : List ℝ) : ℝ :=
  20 * Real.logb 10 (maxList rms / (meanList rms + 1 / 10 ^ 10))

open Classical in
/-- `VoiceRecorder.validate_audio` classification (record_voice.py
lines 178-220): a pure function of duration (seconds), peak amplitude
(normalized scale) and the frame RMS values, returning the advisory list in
program order.  It is total: validation always produces a report and never
fails the pipeline. -/
noncomputable def validate_audio (duration peak : ℝ) (rms : List ℝ) :
    List Advisory :=
  (if duration < 6 then [Advisory.tooShort]
   else if duration > 30 then [Advisory.willTruncate]
   else [Advisory.durationOptimal]) ++
  (if peak > 0.99 then [Advisory.clipping] else [Advisory.levelsGood]) ++
  (if snr_estimate rms < 10 then [Advisory.noisy] else [Advisory.qualityGood])

/-- C6: validation classifies purely from (duration, peak, SNR) against the
fixed thresholds — duration below 6 s is flagged too short, above 30 s
flagged as to-be-truncated, 6-30 s optimal; peak above 0.99 flagged as
clipping; an SNR estimate `20*log10(max(frame RMS)/(mean(frame RMS)+1e-10))`
below 10 dB flagged as noisy — and always returns a report of exactly one
advisory per check. -/
theorem c6_validation_thresholds (duration peak : ℝ) (rms : List ℝ) :
    (Advisory.tooShort ∈ validate_audio duration peak rms ↔ duration < 6) ∧
    (Advisory.willTruncate ∈ validate_audio duration peak rms ↔ duration > 30) ∧
    (Advisory.durationOptimal ∈ validate_audio duration peak rms ↔
       6 ≤ duration ∧ duration ≤ 30) ∧
    (Advisory.clipping ∈ validate_audio duration peak rms ↔ peak > 0.99) ∧
    (Advisory.noisy ∈ validate_audio duration peak rms ↔
       snr_estimate rms < 10) ∧
    (validate_audio duration peak rms).length = 3 := by
  unfold validate_audio
  refine ⟨?_, ?_, ?_, ?_, ?_, ?_⟩ <;>
    split_ifs with h1 h2 <;>
    simp_all <;>
    linarith

/-- `VoiceCloner.post_process_audio` applies `normalize_audio` when the
`normalize` flag is set; the audio is a list of real-valued samples.  RMS
level of the samples, as pydub computes it: the square root of the mean
square. -/
noncomputable def rmsList (xs : List ℝ) : ℝ :=
  Real.sqrt ((xs.map (fun x => x ^ 2)).sum / xs.length)

/-- pydub's `AudioSegment.max_possible_amplitude` for 16-bit samples. -/
def max_possible_amplitude : ℝ := 32768

/-- pydub's `AudioSegment.dBFS`: `20 * log10(rms / max_possible_amplitude)`. -/
noncomputable def dBFS (xs : List ℝ) : ℝ :=
  20 * Real.logb 10 (rmsList xs / max_possible_amplitude)

/-- pydub's `AudioSegment.apply_gain(g)`: scale every sample by
`10 ^ (g / 20)`. -/
noncomputable def apply_gain (g : ℝ) (xs : List ℝ) : List ℝ :=
  xs.map (fun x => x * (10 : ℝ) ^ (g / 20))

/-- `VoiceCloner.normalize_audio` (voice_cloning.py lines 202-207): apply
the uniform gain `target − current` with target −14 dBFS. -/
noncomputable def normalize_audio (xs : List ℝ) : List ℝ :=
  apply_gain (-14 - dBFS xs) xs

theorem rmsList_scale (xs : List ℝ) (c : ℝ) (hc : 0 ≤ c) :
    rmsList (xs.map (fun x => x * c)) = c * rmsList xs := by
  unfold rmsList
  rw [List.map_map, List.length_map]
  have hsum : (xs.map ((fun x => x ^ 2) ∘ fun x => x * c)).sum =
      c ^ 2 * (xs.map (fun x => x ^ 2)).sum := by
    have : ((fun x => x ^ 2) ∘ fun x => x * c) = fun x => c ^ 2 * x ^ 2 := by
      funext x
      simp [mul_pow]
      ring
    rw [this, List.sum_map_mul_left]
  rw [hsum, mul_div_assoc, Real.sqrt_mul (sq_nonneg c), Real.sqrt_sq hc]

theorem rmsList_apply_gain (g : ℝ) (xs : List ℝ) :
    rmsList (apply_gain g xs) = (10 : ℝ) ^ (g / 20) * rmsList xs :=
  rmsList_scale xs ((10 : ℝ) ^ (g / 20))
    (le_of_lt (Real.rpow_pos_of_pos (by norm_num) _))

theorem dBFS_apply_gain (g : ℝ) (xs : List ℝ) (h : 0 < rmsList xs) :
    dBFS (apply_gain g xs) = dBFS xs + g := by
  unfold dBFS
  rw [rmsList_apply_gain]
  have hc : (0 : ℝ) < (10 : ℝ) ^ (g / 20) :=
    Real.rpow_pos_of_pos (by norm_num) _
  have hr : (0 : ℝ) < rmsList xs / max_possible_amplitude := by
    apply div_pos h
    norm_num [max_possible_amplitude]
  rw [mul_div_assoc, Real.logb_mul (ne_of_gt hc) (ne_of_gt hr),
    Real.logb_rpow (by norm_num : (0:ℝ) < 10) (by norm_num : (10:ℝ) ≠ 1)]
  ring

theorem apply_gain_zero (xs : List ℝ) : apply_gain 0 xs = xs := by
  unfold apply_gain
  have : (0 : ℝ) / 20 = 0 := by norm_num
  rw [this, Real.rpow_zero]
  simp

/-- C8: loudness normalization to the −14 dBFS target is idempotent in
exact arithmetic: one application brings the level exactly to −14 dBFS, so
the second application applies zero gain and returns its input unchanged. -/
theorem c8_normalize_idempotent (xs : List ℝ) (h : 0 < rmsList xs) :
    dBFS (normalize_audio xs) = -14 ∧
    normalize_audio (normalize_audio xs) = normalize_audio xs := by
  have h1 : dBFS (normalize_audio xs) = -14 := by
    unfold normalize_audio
    rw [dBFS_apply_gain _ _ h]
    ring
  refine ⟨h1, ?_⟩
  have h2 : normalize_audio (normalize_audio xs) =
      apply_gain (-14 - dBFS (normalize_audio xs)) (normalize_audio xs) := rfl
  rw [h2, h1]
  have h3 : (-14 : ℝ) - -14 = 0 := by norm_num
  rw [h3, apply_gain_zero]

/-- Witness for C8 at the one-sample input `[1]`, whose RMS level is 1. -/
theorem c8_witness :
    dBFS (normalize_audio [1]) = -14 ∧
    normalize_audio (normalize_audio [1]) = normalize_audio [1] :=
  c8_normalize_idempotent [1] (by norm_num [rmsList])

/-- The argument tuple of the engine invocation `self.tts.tts(...)`
(voice_cloning.py lines 149-154): text, speaker reference path, language
and speed.  The call site has no temperature argument. -/
structure EngineCall where
  text : String
  speaker_wav : String
  language : String
  speed : Val

/-- Effective-parameter resolution and engine invocation of
`VoiceCloner.generate_speech` (voice_cloning.py lines 122-154): an explicit
`temperature`/`speed` argument wins, otherwise the value falls back to
`self.config['model'].get(..., default)` (lines 130-134, defaults 0.7 and
1.0), and the engine is invoked with text, speaker reference, language and
speed only (lines 149-154).  Returns the resolved temperature paired with
the engine call, or `none` when `self.config['model']` is missing or not a
mapping (Python raises before reaching the engine in that case). -/
def generate_speech_call (config : List (String × Val))
    (text voice_sample_path language : String)
    (temperature speed : Option ℚ) : Option (Val × EngineCall) :=
  match lookup config "model" with
  | some (.dict m) =>
      let temp : Val :=
        match temperature with
        | some t => .num t
        | none => (lookup m "temperature").getD (.num (7/10))
      let spd : Val :=
        match speed with
        | some s => .num s
        | none => (lookup m "speed").getD (.num 1)
      some (temp, { text := text, speaker_wav := voice_sample_path,
                    language := language, speed := spd })
  | _ => none

/-- C10: the resolved temperature is never passed to the synthesis engine —
for any two temperature arguments, `generate_speech` invokes the engine
with identical arguments (text, speaker reference path, language, speed),
so the engine call does not depend on the temperature setting. -/
theorem c10_temperature_unused (config : List (String × Val))
    (text voice_sample_path language : String)
    (t1 t2 speed : Option ℚ) :
    (generate_speech_call config text voice_sample_path language t1 speed).map
        Prod.snd =
      (generate_speech_call config text voice_sample_path language t2 speed).map
        Prod.snd := by
  unfold generate_speech_call
  cases h : lookup config "model" with
  | none => rfl
  | some v =>
      cases v with
      | dict m => rfl
      | str s => rfl
      | num q => rfl
      | bool b => rfl
      | null => rfl
      | list items => rfl

end Voiceover
